import Mathlib

/-
Verification of the genai-telemetry auto-instrumentation core.

Shallow embedding of src/genai_telemetry/instrumentation/: the generic
interception utility (base.py: wrap_method / unwrap_method), the
instrumentor lifecycle (base.py: BaseInstrumentor.instrument /
uninstrument, safe_import), the registry controller (auto.py:
auto_instrument / uninstrument) and the per-target call wrappers
(openai_inst.py, anthropic_inst.py, langchain_inst.py,
llamaindex_inst.py).

Modelling conventions:
- A Python exception is its type name plus its message (the observable
  data the wrappers read).
- A fallible Python call is a value of Except PyException.
- Python callables are modelled as an inductive type whose values stand
  for distinct function objects, so structural equality of the model
  coincides with Python object identity.
- Python dicts keyed by strings are association lists with
  assignment/lookup/delete helpers (kvSet / kvLookup / kvErase) that
  follow dict semantics (assignment replaces, delete removes the key).
- Wrappers return the pair (call outcome, list of spans sent through the
  sink); wall-clock duration is not modelled (no claim mentions it).
-/

namespace GenaiTelemetry

/-- A Python exception as observed by the instrumentation layer:
its type name and its string message. -/
structure PyException where
  exnType : String
  message : String
deriving Repr, DecidableEq

instance exceptDecEq {ε α : Type} [DecidableEq ε] [DecidableEq α] :
    DecidableEq (Except ε α)
  | .ok a, .ok b =>
    match decEq a b with
    | isTrue h => isTrue (by rw [h])
    | isFalse h => isFalse (fun hh => h (Except.ok.inj hh))
  | .ok _, .error _ => isFalse Except.noConfusion
  | .error _, .ok _ => isFalse Except.noConfusion
  | .error a, .error b =>
    match decEq a b with
    | isTrue h => isTrue (by rw [h])
    | isFalse h => isFalse (fun hh => h (Except.error.inj hh))

/-- Python str.lower on one character; the framework names involved are
ASCII, so only the ASCII range is mapped. -/
def lowerChar (c : Char) : Char :=
  if 65 ≤ c.toNat ∧ c.toNat ≤ 90 then Char.ofNat (c.toNat + 32) else c

/-- Python str.lower, evaluable by kernel reduction. -/
def pyLower (s : String) : String := String.mk (s.data.map lowerChar)

/-- A Python callable object. Distinct constructor arguments stand for
distinct function objects, and an application of a wrapper factory to an
inner callable is a new object remembering the factory identity and the
callable it wraps. -/
inductive Callable where
  | original (id : Nat)
  | wrapped (factoryId : Nat) (inner : Callable)
deriving Repr, DecidableEq

/-- Lookup in a string-keyed Python dict modelled as an association list. -/
def kvLookup {α : Type} : List (String × α) → String → Option α
  | [], _ => none
  | (k', v) :: rest, k => if k' = k then some v else kvLookup rest k

/-- Dict assignment: replaces the binding when the key is present,
otherwise appends it (Python dicts keep insertion order). -/
def kvSet {α : Type} : List (String × α) → String → α → List (String × α)
  | [], k, v => [(k, v)]
  | (k', v') :: rest, k, v =>
    if k' = k then (k, v) :: rest else (k', v') :: kvSet rest k v

/-- Dict deletion: removes every binding of the key (a well-formed dict
has at most one). -/
def kvErase {α : Type} : List (String × α) → String → List (String × α)
  | [], _ => []
  | (k', v') :: rest, k =>
    if k' = k then kvErase rest k else (k', v') :: kvErase rest k

theorem kvLookup_kvSet_self {α : Type} (s : List (String × α)) (k : String) (v : α) :
    kvLookup (kvSet s k v) k = some v := by
  induction s with
  | nil => simp [kvSet, kvLookup]
  | cons hd tl ih =>
    obtain ⟨k', v'⟩ := hd
    by_cases h : k' = k
    · simp [kvSet, kvLookup, h]
    · simp [kvSet, kvLookup, h, ih]

theorem kvLookup_kvErase_self {α : Type} (s : List (String × α)) (k : String) :
    kvLookup (kvErase s k) k = none := by
  induction s with
  | nil => simp [kvErase, kvLookup]
  | cons hd tl ih =>
    obtain ⟨k', v'⟩ := hd
    by_cases h : k' = k
    · simp [kvErase, h, ih]
    · simp [kvErase, kvLookup, h, ih]

theorem kvSet_of_lookup_none {α : Type} (s : List (String × α)) (k : String) (v : α)
    (h : kvLookup s k = none) : kvSet s k v = s ++ [(k, v)] := by
  induction s with
  | nil => simp [kvSet]
  | cons hd tl ih =>
    obtain ⟨k', v'⟩ := hd
    by_cases hk : k' = k
    · simp [kvLookup, hk] at h
    · simp [kvLookup, hk] at h
      simp [kvSet, hk, ih h]

theorem mem_keys_kvSet {α : Type} (s : List (String × α)) (k : String) (v : α)
    (n : String) :
    n ∈ (kvSet s k v).map Prod.fst ↔ n = k ∨ n ∈ s.map Prod.fst := by
  induction s with
  | nil => simp [kvSet]
  | cons hd tl ih =>
    obtain ⟨k', v'⟩ := hd
    by_cases h : k' = k
    · subst h
      simp [kvSet]
      try tauto
    · simp [kvSet, h, ih]
      try tauto

/-- A Python scope an instrumentor patches (in the code this is a class
object): its defining module name, its own name, and its attribute table
of callables. The source computes the patch key from the first two and
never mutates them; wrapping mutates only the attribute table. -/
structure Scope where
  module : String
  scopeName : String
  attrs : List (String × Callable)
deriving Repr, DecidableEq

/-- hasattr(obj, m) for the modelled attribute table. -/
def Scope.hasattr (obj : Scope) (m : String) : Bool :=
  (kvLookup obj.attrs m).isSome

/-- getattr(obj, m), partiality surfaced as Option. -/
def Scope.getattr (obj : Scope) (m : String) : Option Callable :=
  kvLookup obj.attrs m

/-- setattr(obj, m, c). -/
def Scope.setattr (obj : Scope) (m : String) (c : Callable) : Scope :=
  { obj with attrs := kvSet obj.attrs m c }

/-- The composite patch key computed by base.py lines 112 and 129:
module, qualified scope name and method name joined by dots. -/
def patchKey (obj : Scope) (methodName : String) : String :=
  obj.module ++ "." ++ obj.scopeName ++ "." ++ methodName

/-- base.py wrap_method (lines 98-117): if the scope lacks the method,
return false; otherwise capture the current attribute as the original,
assign it into the store under the patch key (the source does this
unconditionally), install wrapperFunc applied to the original, and
return true. The result carries the flag, the mutated scope and the
mutated store. -/
def wrap_method (obj : Scope) (methodName : String)
    (wrapperFunc : Callable → Callable)
    (originalStore : List (String × Callable)) :
    Bool × Scope × List (String × Callable) :=
  match Scope.getattr obj methodName with
  | none => (false, obj, originalStore)
  | some original =>
    let key := patchKey obj methodName
    let store := kvSet originalStore key original
    let wrapped := wrapperFunc original
    (true, Scope.setattr obj methodName wrapped, store)

/-- base.py unwrap_method (lines 120-134): compute the same key; when it
is in the store, reinstall the stored callable, delete the entry and
return true, otherwise return false with nothing changed. -/
def unwrap_method (obj : Scope) (methodName : String)
    (originalStore : List (String × Callable)) :
    Bool × Scope × List (String × Callable) :=
  let key := patchKey obj methodName
  match kvLookup originalStore key with
  | some original =>
    (true, Scope.setattr obj methodName original, kvErase originalStore key)
  | none => (false, obj, originalStore)

theorem patchKey_setattr (obj : Scope) (m : String) (c : Callable) (m' : String) :
    patchKey (Scope.setattr obj m c) m' = patchKey obj m' := rfl

/-- Claim C1: the spec requires wrap_method to leave an already-stored
original untouched on a second application, but the source assigns the
store unconditionally. Evaluated at a concrete double application, the
entry after the second call is the first wrapper, not the original
callable captured by the first call. -/
theorem wrap_method_double_apply_overwrites_original :
    (wrap_method
        (wrap_method ⟨"mod", "Completions", [("create", Callable.original 0)]⟩
          "create" (Callable.wrapped 1) []).2.1
        "create" (Callable.wrapped 1)
        (wrap_method ⟨"mod", "Completions", [("create", Callable.original 0)]⟩
          "create" (Callable.wrapped 1) []).2.2).2.2
      = [("mod.Completions.create", Callable.wrapped 1 (Callable.original 0))] ∧
    Callable.wrapped 1 (Callable.original 0) ≠ Callable.original 0 := by
  exact ⟨rfl, by decide⟩

/-- Claim C2: wrapping a present method over a store empty at the patch
key and then unwrapping it restores the identical original callable,
removes the key from the store, and both operations report true. -/
theorem wrap_unwrap_round_trip (obj : Scope) (m : String)
    (wrapperFunc : Callable → Callable) (store : List (String × Callable))
    (f : Callable)
    (hattr : Scope.getattr obj m = some f)
    (_hkey : kvLookup store (patchKey obj m) = none) :
    (wrap_method obj m wrapperFunc store).1 = true ∧
    (unwrap_method (wrap_method obj m wrapperFunc store).2.1 m
        (wrap_method obj m wrapperFunc store).2.2).1 = true ∧
    Scope.getattr
        (unwrap_method (wrap_method obj m wrapperFunc store).2.1 m
          (wrap_method obj m wrapperFunc store).2.2).2.1 m = some f ∧
    kvLookup
        (unwrap_method (wrap_method obj m wrapperFunc store).2.1 m
          (wrap_method obj m wrapperFunc store).2.2).2.2
        (patchKey obj m) = none := by
  have hwrap : wrap_method obj m wrapperFunc store =
      (true, Scope.setattr obj m (wrapperFunc f),
        kvSet store (patchKey obj m) f) := by
    unfold wrap_method
    rw [hattr]
  rw [hwrap]
  have hkeyEq : patchKey (Scope.setattr obj m (wrapperFunc f)) m = patchKey obj m :=
    patchKey_setattr obj m (wrapperFunc f) m
  have hlook : kvLookup (kvSet store (patchKey obj m) f) (patchKey obj m) = some f :=
    kvLookup_kvSet_self store (patchKey obj m) f
  have hunwrap : unwrap_method (Scope.setattr obj m (wrapperFunc f)) m
      (kvSet store (patchKey obj m) f) =
      (true, Scope.setattr (Scope.setattr obj m (wrapperFunc f)) m f,
        kvErase (kvSet store (patchKey obj m) f) (patchKey obj m)) := by
    simp only [unwrap_method, hkeyEq, hlook]
  rw [hunwrap]
  refine ⟨rfl, rfl, ?_, ?_⟩
  · show kvLookup (kvSet (kvSet obj.attrs m (wrapperFunc f)) m f) m = some f
    exact kvLookup_kvSet_self _ m f
  · exact kvLookup_kvErase_self _ _

/-- Concrete instance of the round-trip theorem: a scope holding one
original method, an empty store, and a wrapper factory. -/
theorem wrap_unwrap_round_trip_witness :
    Scope.getattr ⟨"mod", "Messages", [("create", Callable.original 7)]⟩ "create"
        = some (Callable.original 7) ∧
    kvLookup ([] : List (String × Callable))
        (patchKey ⟨"mod", "Messages", [("create", Callable.original 7)]⟩ "create") = none ∧
    Scope.getattr
        (unwrap_method
          (wrap_method ⟨"mod", "Messages", [("create", Callable.original 7)]⟩
            "create" (Callable.wrapped 3) []).2.1 "create"
          (wrap_method ⟨"mod", "Messages", [("create", Callable.original 7)]⟩
            "create" (Callable.wrapped 3) []).2.2).2.1 "create"
      = some (Callable.original 7) := by
  refine ⟨rfl, rfl, ?_⟩
  exact (wrap_unwrap_round_trip
    ⟨"mod", "Messages", [("create", Callable.original 7)]⟩ "create"
    (Callable.wrapped 3) [] (Callable.original 7) rfl rfl).2.2.1

/-- A Python module object, identified by its resolved name. -/
structure PyModule where
  moduleName : String
deriving Repr, DecidableEq

/-- What importlib.import_module does for a given library in the current
process: resolves a module, raises an ImportError, or raises an
exception of some other class (a broken library executing module-level
code). -/
inductive ImportResult where
  | resolved (m : PyModule)
  | importFailed (e : PyException)
  | raisedOther (e : PyException)
deriving Repr, DecidableEq

/-- base.py safe_import (lines 89-95): try import_module and return None
on ImportError. The except clause names ImportError only, so any other
exception class escapes to the caller. -/
def safe_import : ImportResult → Except PyException (Option PyModule)
  | .resolved m => .ok (some m)
  | .importFailed _ => .ok none
  | .raisedOther e => .error e

/-- The capability probe each instrumentor builds on safe_import, e.g.
openai_inst.py line 38: safe_import(name) is not None. -/
def check_installed (r : ImportResult) : Except PyException Bool :=
  match safe_import r with
  | .ok m => .ok m.isSome
  | .error e => .error e

/-- The mutable state of one BaseInstrumentor instance. -/
structure InstState where
  isInstrumented : Bool
deriving Repr, DecidableEq

/-- base.py BaseInstrumentor.instrument (lines 39-61): short-circuit
true when already instrumented; false when the probe reports the library
absent; otherwise run the patching step inside try/except, flipping the
installed flag and returning true only when it completes. A probe
exception is not guarded and escapes (the try covers only the patching
call), so the probe is passed as an Except value. -/
def BaseInstrumentor.instrument (probeOutcome : Except PyException Bool)
    (applyOutcome : Except PyException Unit) (st : InstState) :
    Except PyException (Bool × InstState) :=
  if st.isInstrumented then .ok (true, st)
  else
    match probeOutcome with
    | .error e => .error e
    | .ok installed =>
      if !installed then .ok (false, st)
      else
        match applyOutcome with
        | .ok _ => .ok (true, { isInstrumented := true })
        | .error _ => .ok (false, st)

/-- base.py BaseInstrumentor.uninstrument (lines 63-81): no-op success
when not instrumented; otherwise run the revert step inside try/except,
clearing the installed flag only on success. -/
def BaseInstrumentor.uninstrument (revertOutcome : Except PyException Unit)
    (st : InstState) : Bool × InstState :=
  if !st.isInstrumented then (true, st)
  else
    match revertOutcome with
    | .ok _ => (true, { isInstrumented := false })
    | .error _ => (false, st)

/-- Claim C5: the install lifecycle of base.py. Already installed gives
true with no change; probe false gives false with no change; a raising
patch step is caught, gives false and leaves the installed flag false;
a completing patch step flips the flag and gives true. -/
theorem instrument_lifecycle (p : Except PyException Bool)
    (a : Except PyException Unit) (st : InstState) :
    (st.isInstrumented = true → BaseInstrumentor.instrument p a st = .ok (true, st)) ∧
    (st.isInstrumented = false → p = .ok false →
      BaseInstrumentor.instrument p a st = .ok (false, st)) ∧
    (∀ e, st.isInstrumented = false → p = .ok true → a = .error e →
      BaseInstrumentor.instrument p a st = .ok (false, st) ∧
        st.isInstrumented = false) ∧
    (st.isInstrumented = false → p = .ok true → a = .ok () →
      BaseInstrumentor.instrument p a st = .ok (true, ⟨true⟩)) := by
  refine ⟨?_, ?_, ?_, ?_⟩
  · intro h1
    simp [BaseInstrumentor.instrument, h1]
  · intro h1 h2
    simp [BaseInstrumentor.instrument, h1, h2]
  · intro e h1 h2 h3
    exact ⟨by simp [BaseInstrumentor.instrument, h1, h2, h3], h1⟩
  · intro h1 h2 h3
    simp [BaseInstrumentor.instrument, h1, h2, h3]

/-- Concrete instances of all four branches of the install lifecycle. -/
theorem instrument_lifecycle_witness :
    BaseInstrumentor.instrument (.ok true)
        (.error ⟨"RuntimeError", "patch failed"⟩) ⟨false⟩ = .ok (false, ⟨false⟩) ∧
    BaseInstrumentor.instrument (.ok false) (.ok ()) ⟨false⟩ = .ok (false, ⟨false⟩) ∧
    BaseInstrumentor.instrument (.ok true) (.ok ()) ⟨true⟩ = .ok (true, ⟨true⟩) ∧
    BaseInstrumentor.instrument (.ok true) (.ok ()) ⟨false⟩ = .ok (true, ⟨true⟩) :=
  ⟨((instrument_lifecycle _ _ _).2.2.1 ⟨"RuntimeError", "patch failed"⟩ rfl rfl rfl).1,
   (instrument_lifecycle _ _ _).2.1 rfl rfl,
   (instrument_lifecycle _ _ _).1 rfl,
   (instrument_lifecycle _ _ _).2.2.2 rfl rfl rfl⟩

/-- Claim C7 as stated is false: a library whose import raises a
non-ImportError makes the probe propagate that exception instead of
returning a boolean. -/
theorem check_installed_raises_on_other_exception :
    check_installed (.raisedOther ⟨"ValueError", "boom"⟩)
        = .error ⟨"ValueError", "boom"⟩ ∧
    check_installed (.raisedOther ⟨"ValueError", "boom"⟩) ≠ .ok false ∧
    check_installed (.raisedOther ⟨"ValueError", "boom"⟩) ≠ .ok true := by
  exact ⟨rfl, fun h => Except.noConfusion h, fun h => Except.noConfusion h⟩

/-- Claim C7, amended: the probe never raises for resolution failures
reported as import errors, where it yields false; a resolved library
yields true; failures raised with any other exception class propagate
to the caller. -/
theorem check_installed_total_on_import_errors :
    (∀ m, check_installed (.resolved m) = .ok true) ∧
    (∀ e, check_installed (.importFailed e) = .ok false) ∧
    (∀ e, check_installed (.raisedOther e) = .error e) :=
  ⟨fun _ => rfl, fun _ => rfl, fun _ => rfl⟩

/-- One instrumentor instance as the lifecycle controller sees it: the
name property, the concrete class name, the installed flag, and what its
revert step would do on the next uninstall. -/
structure Instrumentor where
  name : String
  className : String
  state : InstState
  revertOutcome : Except PyException Unit
deriving Repr, DecidableEq

/-- One entry of the _INSTRUMENTORS registry: the registry key, the
class it constructs, the name property of a fresh instance, and the
behavior of a fresh instance's probe, patch and revert steps. -/
structure RegEntry where
  regName : String
  className : String
  instName : String
  probeOutcome : Except PyException Bool
  applyOutcome : Except PyException Unit
  revertOutcome : Except PyException Unit
deriving Repr, DecidableEq

/-- auto.py lines 141-147: the set of framework names to instrument is
the lowercased given list (or every registered name when none is given)
minus the lowercased exclude list; an empty exclude list is falsy in
Python so the subtraction is skipped. -/
def inTarget (fw : Option (List String)) (ex : List String)
    (reg : List RegEntry) (n : String) : Bool :=
  (match fw with
   | none => (reg.map RegEntry.regName).contains n
   | some fs => (fs.map pyLower).contains n) &&
  !(if ex.isEmpty then false else (ex.map pyLower).contains n)

/-- auto.py lines 156-161: look for an already-active instrumentor of
the same class and report whether it is installed. -/
def existingInstalled (active : List Instrumentor) (cls : String) : Bool :=
  match active.find? (fun i => i.className == cls) with
  | some i => i.state.isInstrumented
  | none => false

/-- The loop of auto.py auto_instrument (lines 151-171): iterate the
registry in order, skipping names outside the target set; short-circuit
to true for an installed active instance of the same class; otherwise
construct a fresh instance, run its install lifecycle, record the flag,
and append the instance to the active set on success. An exception from
the lifecycle (an unguarded probe failure) escapes the whole call. -/
def autoInstrumentGo (target : String → Bool) :
    List RegEntry → List (String × Bool) → List Instrumentor →
    Except PyException (List (String × Bool) × List Instrumentor)
  | [], results, active => .ok (results, active)
  | entry :: rest, results, active =>
    if !target entry.regName then
      autoInstrumentGo target rest results active
    else if existingInstalled active entry.className then
      autoInstrumentGo target rest (kvSet results entry.regName true) active
    else
      match BaseInstrumentor.instrument entry.probeOutcome entry.applyOutcome
          ⟨false⟩ with
      | .error e => .error e
      | .ok (success, st) =>
        autoInstrumentGo target rest (kvSet results entry.regName success)
          (if success then
            active ++ [⟨entry.instName, entry.className, st, entry.revertOutcome⟩]
          else active)

/-- auto.py auto_instrument (lines 88-182), modelled over an explicit
registry and active set. -/
def auto_instrument (fw : Option (List String)) (ex : List String)
    (reg : List RegEntry) (active : List Instrumentor) :
    Except PyException (List (String × Bool) × List Instrumentor) :=
  autoInstrumentGo (inTarget fw ex reg) reg [] active

/-- auto.py line 208: an active variant is skipped when a selection is
given and its lowercased name is not among the lowercased selection. -/
def selSkips (sel : Option (List String)) (nm : String) : Bool :=
  match sel with
  | none => false
  | some fs => !((fs.map pyLower).contains nm)

/-- The loop of auto.py uninstrument (lines 205-217): skipped variants
are kept as-is; otherwise the variant's uninstall lifecycle runs, its
flag is recorded under the lowercased name, and the variant is kept only
when the flag is false. -/
def uninstrumentGo (sel : Option (List String)) :
    List Instrumentor → List (String × Bool) → List Instrumentor →
    List (String × Bool) × List Instrumentor
  | [], results, remaining => (results, remaining)
  | inst :: rest, results, remaining =>
    if selSkips sel (pyLower inst.name) then
      uninstrumentGo sel rest results (remaining ++ [inst])
    else
      let r := BaseInstrumentor.uninstrument inst.revertOutcome inst.state
      uninstrumentGo sel rest (kvSet results (pyLower inst.name) r.1)
        (if r.1 then remaining else remaining ++ [inst])

/-- auto.py uninstrument (lines 185-223): run the loop with empty
accumulators; the active set is replaced by the remaining list. -/
def Auto.uninstrument (sel : Option (List String))
    (active : List Instrumentor) :
    List (String × Bool) × List Instrumentor :=
  uninstrumentGo sel active [] []

/-- Claim C6 as stated is false: requesting a framework name that is not
in the registry puts it in the target set, yet the result map of
auto_instrument does not carry it, so the key set can be a strict subset
of the target set. -/
theorem auto_instrument_unregistered_name_missing :
    auto_instrument (some ["crewai"]) []
        [⟨"openai", "OpenAIInstrumentor", "OpenAI", .ok false, .ok (), .ok ()⟩]
        [] = .ok ([], []) ∧
    inTarget (some ["crewai"]) []
        [⟨"openai", "OpenAIInstrumentor", "OpenAI", .ok false, .ok (), .ok ()⟩]
        "crewai" = true := by
  exact ⟨by decide, by decide⟩

theorem keysStepIff (k n : String) (target : String → Bool) (h1 : target k = true)
    (A : Prop) (restNames : List String) :
    ((n = k ∨ A) ∨ (n ∈ restNames ∧ target n = true)) ↔
    (A ∨ (n ∈ k :: restNames ∧ target n = true)) := by
  constructor
  · rintro ((rfl | ha) | ⟨hm, ht⟩)
    · exact Or.inr ⟨List.mem_cons_self _ _, h1⟩
    · exact Or.inl ha
    · exact Or.inr ⟨List.mem_cons_of_mem _ hm, ht⟩
  · rintro (ha | ⟨hm, ht⟩)
    · exact Or.inl (Or.inr ha)
    · rcases List.mem_cons.mp hm with h | hm'
      · exact Or.inl (Or.inl h)
      · exact Or.inr ⟨hm', ht⟩

theorem autoInstrumentGo_keys (target : String → Bool) :
    ∀ (entries : List RegEntry) (results : List (String × Bool))
      (active : List Instrumentor) (res : List (String × Bool))
      (act : List Instrumentor),
      autoInstrumentGo target entries results active = .ok (res, act) →
      ∀ n, n ∈ res.map Prod.fst ↔
        (n ∈ results.map Prod.fst ∨
          (n ∈ entries.map RegEntry.regName ∧ target n = true)) := by
  intro entries
  induction entries with
  | nil =>
    intro results active res act h n
    simp only [autoInstrumentGo, Except.ok.injEq, Prod.mk.injEq] at h
    obtain ⟨rfl, rfl⟩ := h
    simp
  | cons entry rest ih =>
    intro results active res act h n
    simp only [autoInstrumentGo] at h
    cases h1 : target entry.regName with
    | false =>
      simp only [h1, Bool.not_false, if_true] at h
      rw [ih results active res act h n]
      simp only [List.map_cons, List.mem_cons]
      constructor
      · rintro (hr | ⟨hm, ht⟩)
        · exact Or.inl hr
        · exact Or.inr ⟨Or.inr hm, ht⟩
      · rintro (hr | ⟨hm | hm, ht⟩)
        · exact Or.inl hr
        · rw [hm, h1] at ht
          exact absurd ht (by simp)
        · exact Or.inr ⟨hm, ht⟩
    | true =>
      simp only [h1, Bool.not_true, if_false] at h
      cases h2 : existingInstalled active entry.className with
      | true =>
        simp only [h2, if_true] at h
        rw [ih _ active res act h n, mem_keys_kvSet]
        simp only [List.map_cons]
        exact keysStepIff entry.regName n target h1 _ _
      | false =>
        simp only [h2, if_false] at h
        cases h3 : BaseInstrumentor.instrument entry.probeOutcome
            entry.applyOutcome ⟨false⟩ with
        | error e =>
          rw [h3] at h
          exact absurd h (by simp)
        | ok pr =>
          obtain ⟨success, st⟩ := pr
          rw [h3] at h
          simp only [] at h
          rw [ih _ _ res act h n, mem_keys_kvSet]
          simp only [List.map_cons]
          exact keysStepIff entry.regName n target h1 _ _

/-- Claim C6, amended: when auto_instrument returns a result map, its
key set is the registered names intersected with the target set (the
lowercased given frameworks, or every registered name when unspecified,
minus the lowercased exclusions); in particular excluded names and names
outside the target never appear. -/
theorem auto_instrument_result_keys (fw : Option (List String))
    (ex : List String) (reg : List RegEntry) (active : List Instrumentor)
    (res : List (String × Bool)) (act : List Instrumentor)
    (h : auto_instrument fw ex reg active = .ok (res, act)) (n : String) :
    n ∈ res.map Prod.fst ↔
      (n ∈ reg.map RegEntry.regName ∧ inTarget fw ex reg n = true) := by
  have hgo := autoInstrumentGo_keys (inTarget fw ex reg) reg [] active res act h n
  simpa using hgo

/-- A sample registry for exercising the result-key theorem: openai
installable, anthropic excluded by the call, langchain absent. -/
def regSample : List RegEntry :=
  [⟨"openai", "OpenAIInstrumentor", "OpenAI", .ok true, .ok (), .ok ()⟩,
   ⟨"anthropic", "AnthropicInstrumentor", "Anthropic", .ok true, .ok (), .ok ()⟩,
   ⟨"langchain", "LangChainInstrumentor", "LangChain", .ok false, .ok (), .ok ()⟩]

/-- Concrete instance of the amended result-key theorem, with the
excluded name checked to be outside the key set and a skipped-library
name checked to be inside it. -/
theorem auto_instrument_result_keys_witness :
    (("anthropic" ∈ ([("openai", true), ("langchain", false)] :
          List (String × Bool)).map Prod.fst ↔
        ("anthropic" ∈ regSample.map RegEntry.regName ∧
          inTarget none ["Anthropic"] regSample "anthropic" = true)) ∧
      ¬ ("anthropic" ∈ ([("openai", true), ("langchain", false)] :
          List (String × Bool)).map Prod.fst)) ∧
    (("langchain" ∈ ([("openai", true), ("langchain", false)] :
          List (String × Bool)).map Prod.fst ↔
        ("langchain" ∈ regSample.map RegEntry.regName ∧
          inTarget none ["Anthropic"] regSample "langchain" = true)) ∧
      ("langchain" ∈ ([("openai", true), ("langchain", false)] :
          List (String × Bool)).map Prod.fst)) :=
  ⟨⟨auto_instrument_result_keys none ["Anthropic"] regSample []
      [("openai", true), ("langchain", false)]
      [⟨"OpenAI", "OpenAIInstrumentor", ⟨true⟩, .ok ()⟩] (by decide)
      "anthropic", by decide⟩,
   ⟨auto_instrument_result_keys none ["Anthropic"] regSample []
      [("openai", true), ("langchain", false)]
      [⟨"OpenAI", "OpenAIInstrumentor", ⟨true⟩, .ok ()⟩] (by decide)
      "langchain", by decide⟩⟩

theorem kvLookup_eq_none_iff {α : Type} (s : List (String × α)) (k : String) :
    kvLookup s k = none ↔ k ∉ s.map Prod.fst := by
  induction s with
  | nil => simp [kvLookup]
  | cons hd tl ih =>
    obtain ⟨k', v'⟩ := hd
    by_cases h : k' = k
    · subst h
      simp [kvLookup]
    · simp only [kvLookup, if_neg h, List.map_cons, List.mem_cons]
      rw [ih]
      constructor
      · intro hnt hmem
        rcases hmem with heq | hm
        · exact h heq.symm
        · exact hnt hm
      · intro hnc hm
        exact hnc (Or.inr hm)

theorem uninstrumentGo_spec (sel : Option (List String)) :
    ∀ (insts : List Instrumentor) (results : List (String × Bool))
      (remaining : List Instrumentor),
      (∀ i ∈ insts, selSkips sel (pyLower i.name) = false →
        pyLower i.name ∉ results.map Prod.fst) →
      ((insts.filter (fun i => !selSkips sel (pyLower i.name))).map
        (fun i => pyLower i.name)).Nodup →
      uninstrumentGo sel insts results remaining =
        (results ++
          (insts.filter (fun i => !selSkips sel (pyLower i.name))).map
            (fun i => (pyLower i.name,
              (BaseInstrumentor.uninstrument i.revertOutcome i.state).1)),
         remaining ++
          insts.filter (fun i =>
            selSkips sel (pyLower i.name) ||
            !(BaseInstrumentor.uninstrument i.revertOutcome i.state).1)) := by
  intro insts
  induction insts with
  | nil =>
    intro results remaining _ _
    simp [uninstrumentGo]
  | cons inst rest ih =>
    intro results remaining hfresh hnodup
    cases hskip : selSkips sel (pyLower inst.name) with
    | true =>
      have hfresh' : ∀ i ∈ rest, selSkips sel (pyLower i.name) = false →
          pyLower i.name ∉ results.map Prod.fst :=
        fun i hi => hfresh i (List.mem_cons_of_mem _ hi)
      have e1 : List.filter (fun i => !selSkips sel (pyLower i.name))
          (inst :: rest)
          = List.filter (fun i => !selSkips sel (pyLower i.name)) rest := by
        simp [List.filter_cons, hskip]
      have e2 : List.filter (fun i =>
            selSkips sel (pyLower i.name) ||
            !(BaseInstrumentor.uninstrument i.revertOutcome i.state).1)
          (inst :: rest)
          = inst :: List.filter (fun i =>
            selSkips sel (pyLower i.name) ||
            !(BaseInstrumentor.uninstrument i.revertOutcome i.state).1) rest := by
        simp [List.filter_cons, hskip]
      have hnodup' : ((rest.filter
          (fun i => !selSkips sel (pyLower i.name))).map
          (fun i => pyLower i.name)).Nodup := by
        rw [e1] at hnodup
        exact hnodup
      simp only [uninstrumentGo, hskip, if_true]
      rw [ih results (remaining ++ [inst]) hfresh' hnodup', e1, e2]
      simp [List.append_assoc]
    | false =>
      have e1 : List.filter (fun i => !selSkips sel (pyLower i.name))
          (inst :: rest)
          = inst :: List.filter (fun i => !selSkips sel (pyLower i.name)) rest := by
        simp [List.filter_cons, hskip]
      have hnodupCons := hnodup
      rw [e1, List.map_cons, List.nodup_cons] at hnodupCons
      obtain ⟨hhead, hnodup'⟩ := hnodupCons
      have hk : pyLower inst.name ∉ results.map Prod.fst :=
        hfresh inst (List.mem_cons_self _ _) hskip
      have hfresh' : ∀ i ∈ rest, selSkips sel (pyLower i.name) = false →
          pyLower i.name ∉ (results ++
            [(pyLower inst.name,
              (BaseInstrumentor.uninstrument inst.revertOutcome inst.state).1)]).map
            Prod.fst := by
        intro i hi hsk
        rw [List.map_append]
        intro hmem
        rcases List.mem_append.mp hmem with hmem1 | hmem2
        · exact hfresh i (List.mem_cons_of_mem _ hi) hsk hmem1
        · have heq : pyLower i.name = pyLower inst.name := by
            simpa using hmem2
          refine hhead ?_
          rw [← heq]
          exact List.mem_map_of_mem _ (List.mem_filter.mpr ⟨hi, by simp [hsk]⟩)
      simp only [uninstrumentGo, hskip, if_false]
      rw [kvSet_of_lookup_none _ _ _ ((kvLookup_eq_none_iff _ _).mpr hk)]
      cases hflag : (BaseInstrumentor.uninstrument inst.revertOutcome inst.state).1 with
      | true =>
        have e2 : List.filter (fun i =>
              selSkips sel (pyLower i.name) ||
              !(BaseInstrumentor.uninstrument i.revertOutcome i.state).1)
            (inst :: rest)
            = List.filter (fun i =>
              selSkips sel (pyLower i.name) ||
              !(BaseInstrumentor.uninstrument i.revertOutcome i.state).1) rest := by
          simp [List.filter_cons, hskip, hflag]
        rw [hflag] at hfresh'
        rw [if_pos rfl]
        rw [ih _ remaining hfresh' hnodup', e1, e2]
        simp [hflag, List.append_assoc]
      | false =>
        have e2 : List.filter (fun i =>
              selSkips sel (pyLower i.name) ||
              !(BaseInstrumentor.uninstrument i.revertOutcome i.state).1)
            (inst :: rest)
            = inst :: List.filter (fun i =>
              selSkips sel (pyLower i.name) ||
              !(BaseInstrumentor.uninstrument i.revertOutcome i.state).1) rest := by
          simp [List.filter_cons, hskip, hflag]
        rw [hflag] at hfresh'
        have e3 : (if false = true then remaining else remaining ++ [inst])
            = remaining ++ [inst] := rfl
        rw [e3]
        rw [ih _ (remaining ++ [inst]) hfresh' hnodup', e1, e2]
        simp [hflag, List.append_assoc]

/-- Claim C8: auto.py uninstrument maps each active variant whose
lowercased name is selected (or every active variant when no selection
is given) to the flag its uninstall lifecycle returns, and replaces the
active set with exactly the variants that were outside the selection or
whose uninstall returned false. Names of distinct active variants are
assumed distinct, which the registry guarantees. -/
theorem uninstrument_spec (sel : Option (List String))
    (active : List Instrumentor)
    (hnodup : (active.map (fun i => pyLower i.name)).Nodup) :
    Auto.uninstrument sel active =
      ((active.filter (fun i => !selSkips sel (pyLower i.name))).map
          (fun i => (pyLower i.name,
            (BaseInstrumentor.uninstrument i.revertOutcome i.state).1)),
       active.filter (fun i =>
          selSkips sel (pyLower i.name) ||
          !(BaseInstrumentor.uninstrument i.revertOutcome i.state).1)) := by
  have hsub : ((active.filter (fun i => !selSkips sel (pyLower i.name))).map
      (fun i => pyLower i.name)).Sublist (active.map (fun i => pyLower i.name)) :=
    List.Sublist.map _ (List.filter_sublist active)
  have h := uninstrumentGo_spec sel active [] [] (by simp) (hnodup.sublist hsub)
  simpa [Auto.uninstrument] using h

/-- Concrete instance of the uninstall-semantics theorem: the openai
variant uninstalls cleanly and leaves the set, the anthropic variant
fails its revert step and stays, the langchain variant is outside the
selection and stays untouched. -/
theorem uninstrument_spec_witness :
    Auto.uninstrument (some ["OpenAI", "Anthropic"])
        [⟨"OpenAI", "OpenAIInstrumentor", ⟨true⟩, .ok ()⟩,
         ⟨"Anthropic", "AnthropicInstrumentor", ⟨true⟩,
           .error ⟨"RuntimeError", "revert failed"⟩⟩,
         ⟨"LangChain", "LangChainInstrumentor", ⟨true⟩, .ok ()⟩] =
      ([("openai", true), ("anthropic", false)],
       [⟨"Anthropic", "AnthropicInstrumentor", ⟨true⟩,
           .error ⟨"RuntimeError", "revert failed"⟩⟩,
        ⟨"LangChain", "LangChainInstrumentor", ⟨true⟩, .ok ()⟩]) := by
  rw [uninstrument_spec _ _ (by decide)]
  decide

/-- One telemetry record as assembled in the span_kwargs dict of the
wrappers. Keys absent from the dict on a given path are Option-valued
(none) or keep their zero defaults; duration_ms is wall-clock time and
is not modelled. -/
structure Span where
  span_type : String := ""
  name : String := ""
  model_name : String := ""
  model_provider : String := ""
  input_tokens : Nat := 0
  output_tokens : Nat := 0
  total_tokens : Nat := 0
  status : Option String := none
  is_error : Nat := 0
  error_message : Option String := none
  error_type : Option String := none
  vector_store : Option String := none
  documents_retrieved : Nat := 0
deriving Repr, DecidableEq

/-- The keyword arguments the chat wrappers read: kwargs.get("model",
"unknown"). -/
structure ChatKwargs where
  model : Option String
deriving Repr, DecidableEq

/-- openai_inst.py sync_wrapper of _create_chat_wrapper (lines 98-141):
with no telemetry configured, call straight through; otherwise invoke
the original, and in the finally block emit exactly one LLM span whose
token counts come from the extractor on a non-None response and are zero
otherwise, with error status/type/message recorded when the original
raised, before the outcome (result or identical exception) reaches the
caller. -/
def openaiChatWrapperCall {ρ : Type} (telemetryConfigured : Bool)
    (extractTokens : ρ → Nat × Nat)
    (originalMethod : ChatKwargs → Except PyException ρ)
    (kwargs : ChatKwargs) : Except PyException ρ × List Span :=
  if !telemetryConfigured then (originalMethod kwargs, [])
  else
    let model := kwargs.model.getD "unknown"
    match originalMethod kwargs with
    | .ok response =>
      let toks := extractTokens response
      (.ok response,
       [{ span_type := "LLM", name := "openai.chat.completions.create",
          model_name := model, model_provider := "openai",
          input_tokens := toks.1, output_tokens := toks.2,
          total_tokens := toks.1 + toks.2 }])
    | .error e =>
      (.error e,
       [{ span_type := "LLM", name := "openai.chat.completions.create",
          model_name := model, model_provider := "openai",
          input_tokens := 0, output_tokens := 0, total_tokens := 0,
          status := some "ERROR", is_error := 1,
          error_message := some e.message, error_type := some e.exnType }])

/-- anthropic_inst.py sync_wrapper of _create_messages_wrapper (lines
95-138): identical control flow to the openai chat wrapper with the
anthropic span identity. -/
def anthropicMessagesWrapperCall {ρ : Type} (telemetryConfigured : Bool)
    (extractTokens : ρ → Nat × Nat)
    (originalMethod : ChatKwargs → Except PyException ρ)
    (kwargs : ChatKwargs) : Except PyException ρ × List Span :=
  if !telemetryConfigured then (originalMethod kwargs, [])
  else
    let model := kwargs.model.getD "unknown"
    match originalMethod kwargs with
    | .ok response =>
      let toks := extractTokens response
      (.ok response,
       [{ span_type := "LLM", name := "anthropic.messages.create",
          model_name := model, model_provider := "anthropic",
          input_tokens := toks.1, output_tokens := toks.2,
          total_tokens := toks.1 + toks.2 }])
    | .error e =>
      (.error e,
       [{ span_type := "LLM", name := "anthropic.messages.create",
          model_name := model, model_provider := "anthropic",
          input_tokens := 0, output_tokens := 0, total_tokens := 0,
          status := some "ERROR", is_error := 1,
          error_message := some e.message, error_type := some e.exnType }])

/-- A LangChain receiver as the instrumentor probes it: its concrete
type name and the string-valued attributes the metadata extractor
reads. -/
structure LCInstance where
  typeName : String
  attrs : List (String × String)
deriving Repr, DecidableEq

/-- Check whether one character list occurs as a contiguous run starting
at the head of another. -/
def startsWithChars : List Char → List Char → Bool
  | [], _ => true
  | _ :: _, [] => false
  | a :: as, b :: bs => (a = b) && startsWithChars as bs

/-- Check whether one character list occurs contiguously anywhere in
another. -/
def hasSubChars (needle : List Char) : List Char → Bool
  | [] => startsWithChars needle []
  | b :: bs => startsWithChars needle (b :: bs) || hasSubChars needle bs

/-- The Python in-operator on strings. -/
def strContains (hay needle : String) : Bool :=
  hasSubChars needle.data hay.data

/-- langchain_inst.py _extract_model_info lines 59-64: first candidate
attribute among model_name, model, model_id, repo_id that is present
with a truthy (non-empty) value, defaulting to "unknown". -/
def firstModelAttr (inst : LCInstance) : List String → String
  | [] => "unknown"
  | a :: rest =>
    match kvLookup inst.attrs a with
    | some v => if v ≠ "" then v else firstModelAttr inst rest
    | none => firstModelAttr inst rest

/-- langchain_inst.py _extract_model_info lines 66-83: provider from
substring tests over the lowercased concrete class name, defaulting to
"langchain". -/
def inferProvider (className : String) : String :=
  let cn := pyLower className
  if strContains cn "openai" || strContains cn "gpt" then "openai"
  else if strContains cn "anthropic" || strContains cn "claude" then "anthropic"
  else if strContains cn "cohere" then "cohere"
  else if strContains cn "huggingface" || strContains cn "hf" then "huggingface"
  else if strContains cn "google" || strContains cn "gemini" ||
    strContains cn "palm" then "google"
  else if strContains cn "bedrock" then "aws_bedrock"
  else if strContains cn "ollama" then "ollama"
  else if strContains cn "mistral" then "mistral"
  else "langchain"

/-- langchain_inst.py _extract_model_info (lines 53-85). -/
def extract_model_info (inst : LCInstance) : String × String :=
  (firstModelAttr inst ["model_name", "model", "model_id", "repo_id"],
   inferProvider inst.typeName)

/-- langchain_inst.py wrapper of _create_llm_invoke_wrapper (lines
87-134): pass through without telemetry; otherwise extract model info
from the receiver up front, invoke the original, and emit exactly one
LLM span in the finally block (tokens extracted from a non-None
response, zeros otherwise; error fields when the call raised). -/
def langchainLLMInvokeCall {ρ : Type} (telemetryConfigured : Bool)
    (extractTokens : ρ → Nat × Nat)
    (originalMethod : LCInstance → Except PyException ρ)
    (selfInstance : LCInstance) : Except PyException ρ × List Span :=
  if !telemetryConfigured then (originalMethod selfInstance, [])
  else
    let info := extract_model_info selfInstance
    match originalMethod selfInstance with
    | .ok response =>
      let toks := extractTokens response
      (.ok response,
       [{ span_type := "LLM",
          name := "langchain." ++ selfInstance.typeName ++ ".invoke",
          model_name := info.1, model_provider := info.2,
          input_tokens := toks.1, output_tokens := toks.2,
          total_tokens := toks.1 + toks.2 }])
    | .error e =>
      (.error e,
       [{ span_type := "LLM",
          name := "langchain." ++ selfInstance.typeName ++ ".invoke",
          model_name := info.1, model_provider := info.2,
          input_tokens := 0, output_tokens := 0, total_tokens := 0,
          status := some "ERROR", is_error := 1,
          error_message := some e.message, error_type := some e.exnType }])

/-- Claim C3: with a sink configured, when the original raises e, the
openai chat wrapper and the anthropic messages wrapper both re-raise the
identical exception and emit exactly one span with error status carrying
the exception's type name and message. -/
theorem error_transparency {ρ σ : Type}
    (extractA : ρ → Nat × Nat) (extractB : σ → Nat × Nat)
    (omA : ChatKwargs → Except PyException ρ)
    (omB : ChatKwargs → Except PyException σ)
    (kwargs : ChatKwargs) (e e' : PyException)
    (hA : omA kwargs = .error e) (hB : omB kwargs = .error e') :
    ((openaiChatWrapperCall true extractA omA kwargs).1 = .error e ∧
      ∃ s, (openaiChatWrapperCall true extractA omA kwargs).2 = [s] ∧
        s.status = some "ERROR" ∧ s.is_error = 1 ∧
        s.error_type = some e.exnType ∧ s.error_message = some e.message) ∧
    ((anthropicMessagesWrapperCall true extractB omB kwargs).1 = .error e' ∧
      ∃ s, (anthropicMessagesWrapperCall true extractB omB kwargs).2 = [s] ∧
        s.status = some "ERROR" ∧ s.is_error = 1 ∧
        s.error_type = some e'.exnType ∧ s.error_message = some e'.message) := by
  constructor
  · simp only [openaiChatWrapperCall, hA, Bool.not_true, if_false]
    exact ⟨rfl, _, rfl, rfl, rfl, rfl, rfl⟩
  · simp only [anthropicMessagesWrapperCall, hB, Bool.not_true, if_false]
    exact ⟨rfl, _, rfl, rfl, rfl, rfl, rfl⟩

/-- Concrete instance of error transparency: an original raising a
RateLimitError under both wrappers. -/
theorem error_transparency_witness :
    (openaiChatWrapperCall (ρ := Unit) true (fun _ => (0, 0))
        (fun _ => .error ⟨"RateLimitError", "too many requests"⟩)
        ⟨some "gpt-4o"⟩).1 = .error ⟨"RateLimitError", "too many requests"⟩ ∧
    (anthropicMessagesWrapperCall (ρ := Unit) true (fun _ => (0, 0))
        (fun _ => .error ⟨"RateLimitError", "too many requests"⟩)
        ⟨some "gpt-4o"⟩).1 = .error ⟨"RateLimitError", "too many requests"⟩ :=
  ⟨(error_transparency (ρ := Unit) (σ := Unit) (fun _ => (0, 0)) (fun _ => (0, 0))
      (fun _ => .error ⟨"RateLimitError", "too many requests"⟩)
      (fun _ => .error ⟨"RateLimitError", "too many requests"⟩)
      ⟨some "gpt-4o"⟩ _ _ rfl rfl).1.1,
   (error_transparency (ρ := Unit) (σ := Unit) (fun _ => (0, 0)) (fun _ => (0, 0))
      (fun _ => .error ⟨"RateLimitError", "too many requests"⟩)
      (fun _ => .error ⟨"RateLimitError", "too many requests"⟩)
      ⟨some "gpt-4o"⟩ _ _ rfl rfl).2.1⟩

/-- Claim C4: with no sink configured, the openai chat wrapper and the
langchain llm invoke wrapper return exactly the original call's outcome
(same result, same exception) and emit zero spans. -/
theorem pass_through_unconfigured {ρ σ : Type}
    (extractA : ρ → Nat × Nat) (extractB : σ → Nat × Nat)
    (omA : ChatKwargs → Except PyException ρ)
    (omB : LCInstance → Except PyException σ)
    (kwargs : ChatKwargs) (inst : LCInstance) :
    openaiChatWrapperCall false extractA omA kwargs = (omA kwargs, []) ∧
    langchainLLMInvokeCall false extractB omB inst = (omB inst, []) :=
  ⟨rfl, rfl⟩

/-- Claim C10: every LLM span emitted by the openai chat, anthropic
messages and langchain llm invoke wrappers has total_tokens equal to
input_tokens plus output_tokens, and when the original call raised (no
response available) both token counts in the span are zero. -/
theorem llm_token_consistency {ρ σ τ : Type}
    (extractA : ρ → Nat × Nat) (extractB : σ → Nat × Nat)
    (extractC : τ → Nat × Nat)
    (omA : ChatKwargs → Except PyException ρ)
    (omB : ChatKwargs → Except PyException σ)
    (omC : LCInstance → Except PyException τ)
    (kwargs : ChatKwargs) (inst : LCInstance) :
    (∃ s, (openaiChatWrapperCall true extractA omA kwargs).2 = [s] ∧
      s.total_tokens = s.input_tokens + s.output_tokens ∧
      (∀ e, omA kwargs = .error e → s.input_tokens = 0 ∧ s.output_tokens = 0)) ∧
    (∃ s, (anthropicMessagesWrapperCall true extractB omB kwargs).2 = [s] ∧
      s.total_tokens = s.input_tokens + s.output_tokens ∧
      (∀ e, omB kwargs = .error e → s.input_tokens = 0 ∧ s.output_tokens = 0)) ∧
    (∃ s, (langchainLLMInvokeCall true extractC omC inst).2 = [s] ∧
      s.total_tokens = s.input_tokens + s.output_tokens ∧
      (∀ e, omC inst = .error e → s.input_tokens = 0 ∧ s.output_tokens = 0)) := by
  refine ⟨?_, ?_, ?_⟩
  · cases hA : omA kwargs with
    | ok r =>
      simp only [openaiChatWrapperCall, hA, Bool.not_true, if_false]
      exact ⟨_, rfl, rfl, fun e he => Except.noConfusion he⟩
    | error e =>
      simp only [openaiChatWrapperCall, hA, Bool.not_true, if_false]
      exact ⟨_, rfl, rfl, fun e' _ => ⟨rfl, rfl⟩⟩
  · cases hB : omB kwargs with
    | ok r =>
      simp only [anthropicMessagesWrapperCall, hB, Bool.not_true, if_false]
      exact ⟨_, rfl, rfl, fun e he => Except.noConfusion he⟩
    | error e =>
      simp only [anthropicMessagesWrapperCall, hB, Bool.not_true, if_false]
      exact ⟨_, rfl, rfl, fun e' _ => ⟨rfl, rfl⟩⟩
  · cases hC : omC inst with
    | ok r =>
      simp only [langchainLLMInvokeCall, hC, Bool.not_true, if_false]
      exact ⟨_, rfl, rfl, fun e he => Except.noConfusion he⟩
    | error e =>
      simp only [langchainLLMInvokeCall, hC, Bool.not_true, if_false]
      exact ⟨_, rfl, rfl, fun e' _ => ⟨rfl, rfl⟩⟩

/-- Concrete instance of token-count consistency: a failing openai chat
call emits one span with all three token counts zero. -/
theorem llm_token_consistency_witness :
    (openaiChatWrapperCall (ρ := Unit) true (fun _ => (3, 4))
        (fun _ => .error ⟨"APIError", "bad gateway"⟩) ⟨none⟩).2.map
        (fun s => (s.input_tokens, s.output_tokens, s.total_tokens))
      = [(0, 0, 0)] := by
  obtain ⟨s, hs, htot, himp⟩ :=
    (llm_token_consistency (ρ := Unit) (σ := Unit) (τ := Unit)
      (fun _ => (3, 4)) (fun _ => (3, 4)) (fun _ => (3, 4))
      (fun _ => .error ⟨"APIError", "bad gateway"⟩)
      (fun _ => .error ⟨"APIError", "bad gateway"⟩)
      (fun _ => .error ⟨"APIError", "bad gateway"⟩)
      ⟨none⟩ ⟨"ChatOpenAI", []⟩).1
  obtain ⟨hi, ho⟩ := himp ⟨"APIError", "bad gateway"⟩ rfl
  rw [hs, List.map_cons, List.map_nil, htot, hi, ho]

/-- The value a wrapped retriever call returns: a Python list of n
documents, or some other sized collection of n items (a tuple, say).
Python truthiness of either is nonemptiness. -/
inductive RetrieveResult where
  | pyList (n : Nat)
  | pyOther (n : Nat)
deriving Repr, DecidableEq

/-- len(result). -/
def retLen : RetrieveResult → Nat
  | .pyList n => n
  | .pyOther n => n

/-- bool(result) for sized collections. -/
def retTruthy (r : RetrieveResult) : Bool := retLen r != 0

/-- isinstance(result, list). -/
def retIsList : RetrieveResult → Bool
  | .pyList _ => true
  | .pyOther _ => false

/-- A retriever receiver: its concrete type name, and the concrete type
names of its vectorstore / vector_store attributes when those attributes
exist. -/
structure RetrieverInstance where
  typeName : String
  vectorstoreType : Option String
  vectorStoreAttrType : Option String
deriving Repr, DecidableEq

/-- langchain_inst.py lines 252-256: type name of the vectorstore
attribute, else of the vector_store attribute, else "unknown". -/
def langchainVectorStoreName (inst : RetrieverInstance) : String :=
  match inst.vectorstoreType with
  | some t => t
  | none =>
    match inst.vectorStoreAttrType with
    | some t => t
    | none => "unknown"

/-- langchain_inst.py wrapper of _create_retriever_invoke_wrapper (lines
226-273): pass through without telemetry; otherwise one RETRIEVER span
with documents_retrieved = len(result) if result is a truthy list else
0, and the vector-store type name probed from the receiver. The error
span carries status and message but no error_type (the source sets none
there). -/
def langchainRetrieverInvokeCall (telemetryConfigured : Bool)
    (originalMethod : RetrieverInstance → Except PyException RetrieveResult)
    (selfInstance : RetrieverInstance) :
    Except PyException RetrieveResult × List Span :=
  if !telemetryConfigured then (originalMethod selfInstance, [])
  else
    match originalMethod selfInstance with
    | .ok r =>
      (.ok r,
       [{ span_type := "RETRIEVER",
          name := "langchain." ++ selfInstance.typeName ++ ".invoke",
          vector_store := some (langchainVectorStoreName selfInstance),
          documents_retrieved :=
            if retTruthy r && retIsList r then retLen r else 0 }])
    | .error e =>
      (.error e,
       [{ span_type := "RETRIEVER",
          name := "langchain." ++ selfInstance.typeName ++ ".invoke",
          vector_store := some (langchainVectorStoreName selfInstance),
          documents_retrieved := 0,
          status := some "ERROR", is_error := 1,
          error_message := some e.message }])

/-- llamaindex_inst.py wrapper of _create_retrieve_wrapper (lines
133-173): pass through without telemetry; otherwise one RETRIEVER span
with documents_retrieved = len(result) if result (truthy) else 0 - with
no isinstance list check - and the vector_store field always the
constant "llamaindex" regardless of receiver attributes. -/
def llamaindexRetrieveCall (telemetryConfigured : Bool)
    (originalMethod : RetrieverInstance → Except PyException RetrieveResult)
    (selfInstance : RetrieverInstance) :
    Except PyException RetrieveResult × List Span :=
  if !telemetryConfigured then (originalMethod selfInstance, [])
  else
    match originalMethod selfInstance with
    | .ok r =>
      (.ok r,
       [{ span_type := "RETRIEVER",
          name := "llamaindex." ++ selfInstance.typeName ++ ".retrieve",
          vector_store := some "llamaindex",
          documents_retrieved := if retTruthy r then retLen r else 0 }])
    | .error e =>
      (.error e,
       [{ span_type := "RETRIEVER",
          name := "llamaindex." ++ selfInstance.typeName ++ ".retrieve",
          vector_store := some "llamaindex",
          documents_retrieved := 0,
          status := some "ERROR", is_error := 1,
          error_message := some e.message }])

/-- Claim C9 as stated is false for the llamaindex wrapper: a retrieve
call returning a truthy non-list sized collection of two items on a
receiver whose vectorstore attribute has type name Chroma yields a span
counting 2 documents (the claim says 0 for non-lists) whose vector_store
is the constant "llamaindex", not the attribute-derived "Chroma". -/
theorem llamaindex_retrieve_span_deviates :
    (llamaindexRetrieveCall true (fun _ => .ok (.pyOther 2))
        ⟨"VectorIndexRetriever", some "Chroma", none⟩).2.map
        (fun s => (s.documents_retrieved, s.vector_store))
      = [(2, some "llamaindex")] ∧
    retIsList (.pyOther 2) = false ∧
    (2 ≠ 0 ∧ some "llamaindex" ≠ (some "Chroma" : Option String)) := by
  refine ⟨rfl, rfl, by decide, by decide⟩

/-- Claim C9, amended: with a sink configured, the langchain retriever
wrapper emits exactly one RETRIEVER span whose documents_retrieved is
the length of the result when it is a list and 0 otherwise (including
failures), with the vector-store type name read from the vectorstore
then vector_store attribute, defaulting to "unknown"; the llamaindex
retrieve wrapper emits exactly one RETRIEVER span whose count is the
length of any truthy result (0 for empty results and failures) and whose
vector_store is always the constant "llamaindex". -/
theorem retriever_span_semantics
    (omL omX : RetrieverInstance → Except PyException RetrieveResult)
    (inst : RetrieverInstance) :
    (∃ s, (langchainRetrieverInvokeCall true omL inst).2 = [s] ∧
      s.span_type = "RETRIEVER" ∧
      s.vector_store = some (langchainVectorStoreName inst) ∧
      s.documents_retrieved =
        (match omL inst with
         | .ok r => if retIsList r then retLen r else 0
         | .error _ => 0)) ∧
    (∃ s, (llamaindexRetrieveCall true omX inst).2 = [s] ∧
      s.span_type = "RETRIEVER" ∧
      s.vector_store = some "llamaindex" ∧
      s.documents_retrieved =
        (match omX inst with
         | .ok r => if retTruthy r then retLen r else 0
         | .error _ => 0)) := by
  constructor
  · cases hL : omL inst with
    | ok r =>
      simp only [langchainRetrieverInvokeCall, hL, Bool.not_true, if_false]
      refine ⟨_, rfl, rfl, rfl, ?_⟩
      show (if retTruthy r && retIsList r then retLen r else 0)
        = (if retIsList r then retLen r else 0)
      cases r with
      | pyList n =>
        cases n with
        | zero => rfl
        | succ m => simp [retTruthy, retIsList, retLen]
      | pyOther n => simp [retIsList]
    | error e =>
      simp only [langchainRetrieverInvokeCall, hL, Bool.not_true, if_false]
      exact ⟨_, rfl, rfl, rfl, rfl⟩
  · cases hX : omX inst with
    | ok r =>
      simp only [llamaindexRetrieveCall, hX, Bool.not_true, if_false]
      exact ⟨_, rfl, rfl, rfl, rfl⟩
    | error e =>
      simp only [llamaindexRetrieveCall, hX, Bool.not_true, if_false]
      exact ⟨_, rfl, rfl, rfl, rfl⟩

/-- Concrete instance of the retriever span semantics: a langchain
retriever returning a three-document list with a FAISS vectorstore
attribute, and a llamaindex retriever whose call fails. -/
theorem retriever_span_semantics_witness :
    (langchainRetrieverInvokeCall true (fun _ => .ok (.pyList 3))
        ⟨"VectorStoreRetriever", some "FAISS", none⟩).2.map
        (fun s => (s.documents_retrieved, s.vector_store))
      = [(3, some "FAISS")] ∧
    (llamaindexRetrieveCall true
        (fun _ => .error ⟨"TimeoutError", "index unavailable"⟩)
        ⟨"VectorStoreRetriever", some "FAISS", none⟩).2.map
        (fun s => (s.documents_retrieved, s.vector_store))
      = [(0, some "llamaindex")] := by
  have h1 := (retriever_span_semantics (fun _ => .ok (.pyList 3))
    (fun _ => .error ⟨"TimeoutError", "index unavailable"⟩)
    ⟨"VectorStoreRetriever", some "FAISS", none⟩).1
  have h2 := (retriever_span_semantics (fun _ => .ok (.pyList 3))
    (fun _ => .error ⟨"TimeoutError", "index unavailable"⟩)
    ⟨"VectorStoreRetriever", some "FAISS", none⟩).2
  obtain ⟨s1, hs1, _, hv1, hd1⟩ := h1
  obtain ⟨s2, hs2, _, hv2, hd2⟩ := h2
  constructor
  · rw [hs1, List.map_cons, List.map_nil, hd1, hv1]
    rfl
  · rw [hs2, List.map_cons, List.map_nil, hd2, hv2]

end GenaiTelemetry
